import Mathlib

/-!
# Verification of the `gpu-cpu-test` harness
(`fil-proofs-tooling/src/bin/gpu-cpu-test/main.rs`)

A shallow embedding of the concurrency/arbitration harness: a Worker loop
(`thread_fun`) driven as a small-step transition system with explicit
environment inputs (results of the external GPU-lock calls, workload
completion, asynchronous arrival of the cancellation signal), and the
Supervisor (`main`) modelled as the sequence of observable events it
performs plus the semantics of its cancellation-send loop.

External capabilities (`bellperson::gpu`, `election_post`) are modelled by
their result types: each call site consumes an environment-supplied result,
exactly as the Rust call sites pattern-match on theirs.
-/

set_option autoImplicit false
set_option maxRecDepth 20000

namespace GpuCpuTest

/-- `const TIMEOUT: u64 = 5 * 60;` (main.rs line 14), in seconds. -/
def TIMEOUT : Nat := 5 * 60

/-- The Worker loop bound: `std::u8::MAX` (main.rs line 49). -/
def U8_MAX : Nat := 255

/-- The poll-retry sleep: `Duration::from_millis(100)` (main.rs line 58). -/
def POLL_SLEEP_MS : Nat := 100

/-- `RunInfo` (main.rs lines 16–20): elapsed time (modelled in ms) and the
iteration counter (`u8` in the source, a bounded `Nat` here). -/
structure RunInfo where
  elapsed : Nat
  iterations : Nat
  deriving DecidableEq, Repr

/-- State of one `mpsc::channel::<()>()` as the Worker's `rx.try_recv()`
sees it: how many signals are queued and whether the sender was dropped. -/
structure ChannelState where
  pending : Nat
  senderDropped : Bool
  deriving DecidableEq, Repr

/-- The three outcomes of `Receiver::try_recv()`. -/
inductive TryRecvResult where
  | ok
  | empty
  | disconnected
  deriving DecidableEq, Repr

/-- `rx.try_recv()`: a queued message is delivered first; with the queue
empty, a dropped sender yields `Disconnected`, otherwise `Empty`. -/
def tryRecv (c : ChannelState) : TryRecvResult × ChannelState :=
  if 0 < c.pending then (TryRecvResult.ok, { c with pending := c.pending - 1 })
  else if c.senderDropped then (TryRecvResult.disconnected, c)
  else (TryRecvResult.empty, c)

/-- Program points of `thread_fun` (main.rs lines 41–82).  `acquire` is the
call `gpu::acquire_gpu().unwrap()` (line 55), `poll` the
`while !gpu::gpu_is_available().unwrap_or(false)` loop (lines 57–60),
`dropLock` the `gpu::drop_acquire_lock` call (line 62), `runWorkload` the
`election_post::do_generate_post` call (line 66), `checkChannel` the
`rx.try_recv()` match (lines 69–75).  `done` is the `RunInfo` return,
`panicked` an `unwrap` panic. -/
inductive Phase where
  | loopHead
  | acquire
  | poll
  | dropLock
  | runWorkload
  | checkChannel
  | done
  | panicked
  deriving DecidableEq, Repr

/-- Worker-thread state: program point, the `iteration` counter, the
receiving end of its cancellation channel, whether the GPU lock handle is
currently held, elapsed milliseconds since `timing = Instant::now()`, and a
ghost count of completed `do_generate_post` invocations. -/
structure WState where
  phase : Phase
  iteration : Nat
  chan : ChannelState
  holdsLock : Bool
  elapsedMs : Nat
  completedRuns : Nat
  deriving DecidableEq, Repr

instance {ε α : Type} [DecidableEq ε] [DecidableEq α] : DecidableEq (Except ε α)
  | Except.ok a, Except.ok b =>
      if h : a = b then Decidable.isTrue (by rw [h])
      else Decidable.isFalse (by intro hh; cases hh; exact h rfl)
  | Except.ok _, Except.error _ => Decidable.isFalse (by intro h; cases h)
  | Except.error _, Except.ok _ => Decidable.isFalse (by intro h; cases h)
  | Except.error e, Except.error f =>
      if h : e = f then Decidable.isTrue (by rw [h])
      else Decidable.isFalse (by intro hh; cases hh; exact h rfl)

/-- Environment inputs consumed by Worker steps: `tick` for steps needing
no external data, `workloadDone d` for `do_generate_post` returning after
`d` ms, the `Result`s of `acquire_gpu` and `gpu_is_available`, and the two
asynchronous Supervisor-side channel events (`tx.send(())` landing, `tx`
being dropped). -/
inductive WInput where
  | tick
  | workloadDone (d : Nat)
  | acquireResult (r : Except Unit Unit)
  | availResult (r : Except Unit Bool)
  | signal
  | dropSender
  deriving DecidableEq, Repr

/-- One small step of `thread_fun` (main.rs lines 41–82), parameterised by
the `gpu_stealing` flag.  A `signal`/`dropSender` input mutates only the
channel, and only while the Worker is still running (once the loop has
exited, `rx` is dropped and a send can no longer land).  Terminal phases
stutter; an input of the wrong kind for the current phase also stutters. -/
def wstep (gpuStealing : Bool) (s : WState) (i : WInput) : WState :=
  match i with
  | WInput.signal =>
      if s.phase = Phase.done ∨ s.phase = Phase.panicked then s
      else { s with chan := { s.chan with pending := s.chan.pending + 1 } }
  | WInput.dropSender =>
      { s with chan := { s.chan with senderDropped := true } }
  | _ =>
    match s.phase, i with
    | Phase.loopHead, WInput.tick =>
        -- `while iteration < std::u8::MAX` (line 49)
        if s.iteration < U8_MAX then
          if gpuStealing then { s with phase := Phase.acquire }
          else { s with phase := Phase.runWorkload }
        else { s with phase := Phase.done }
    | Phase.acquire, WInput.acquireResult r =>
        -- `let gpu_lock = gpu::acquire_gpu().unwrap();` (line 55)
        match r with
        | Except.ok _ => { s with phase := Phase.poll, holdsLock := true }
        | Except.error _ => { s with phase := Phase.panicked }
    | Phase.poll, WInput.availResult r =>
        -- `while !gpu::gpu_is_available().unwrap_or(false)` (lines 57–60)
        match r with
        | Except.ok true => { s with phase := Phase.dropLock }
        | Except.ok false => { s with elapsedMs := s.elapsedMs + POLL_SLEEP_MS }
        | Except.error _ => { s with elapsedMs := s.elapsedMs + POLL_SLEEP_MS }
    | Phase.dropLock, WInput.tick =>
        -- `gpu::drop_acquire_lock(gpu_lock);` (line 62)
        { s with phase := Phase.runWorkload, holdsLock := false }
    | Phase.runWorkload, WInput.workloadDone d =>
        -- `election_post::do_generate_post(...)` (line 66)
        { s with phase := Phase.checkChannel,
                 elapsedMs := s.elapsedMs + d,
                 completedRuns := s.completedRuns + 1 }
    | Phase.checkChannel, WInput.tick =>
        -- `match rx.try_recv()` (lines 69–75), then `iteration += 1` (line 76)
        match tryRecv s.chan with
        | (TryRecvResult.ok, c) => { s with phase := Phase.done, chan := c }
        | (TryRecvResult.disconnected, c) => { s with phase := Phase.done, chan := c }
        | (TryRecvResult.empty, c) =>
            { s with phase := Phase.loopHead, chan := c, iteration := s.iteration + 1 }
    | _, _ => s

/-- Worker state at thread start: `let timing = Instant::now(); let mut
iteration = 0;` with an open, empty channel and no lock held. -/
def winit : WState :=
  { phase := Phase.loopHead, iteration := 0,
    chan := { pending := 0, senderDropped := false },
    holdsLock := false, elapsedMs := 0, completedRuns := 0 }

/-- Run the Worker along a list of environment inputs. -/
def runW (gpuStealing : Bool) (s : WState) : List WInput → WState
  | [] => s
  | i :: l => runW gpuStealing (wstep gpuStealing s i) l

/-- The `RunInfo` built at loop exit (main.rs lines 78–81). -/
def runInfoOf (s : WState) : RunInfo :=
  { elapsed := s.elapsedMs, iterations := s.iteration }

/-- `rx` is alive exactly while `thread_fun` has neither returned nor
panicked; afterwards the receiver is dropped. -/
def receiverAlive (s : WState) : Bool :=
  match s.phase with
  | Phase.done => false
  | Phase.panicked => false
  | _ => true

/-- `Sender::send(())` of `std::sync::mpsc`: succeeds iff the receiver is
still alive, otherwise returns `Err(SendError)`. -/
def mpscSend (receiverAlive : Bool) : Except Unit Unit :=
  if receiverAlive then Except.ok () else Except.error ()

/-- The Supervisor's cancellation broadcast, `for tx in senders {
tx.send(()).unwrap(); }` (main.rs lines 169–171): the `unwrap` turns the
first failed send into a panic (`Except.error`), aborting the loop. -/
def sendAll : List Bool → Except Unit Unit
  | [] => Except.ok ()
  | alive :: rest =>
      match mpscSend alive with
      | Except.ok _ => sendAll rest
      | Except.error e => Except.error e

/-- The fixture data built once by `main` (lines 144–145): the replica-info
map and the candidate list are produced by the external `election_post`
fixture builders, so their contents are opaque values here, carried by
type parameters at use sites. -/
structure Fixtures (R C : Type) where
  privReplicaInfo : R
  candidates : C
  deriving DecidableEq, Repr

/-- Arguments of one `spawn_thread` call (main.rs lines 84–100): thread
name, the `gpu_stealing` flag passed through to `thread_fun`, and the
Worker's own copy of the fixtures. -/
structure WorkerConfig (R C : Type) where
  name : String
  stealsResource : Bool
  fixtures : Fixtures R C
  deriving DecidableEq, Repr

/-- The `spawn_thread` calls `main` makes (lines 148–163): always `"high"`
with the `gpu-stealing` flag and a clone of the fixtures; additionally
`"low"` with stealing off when `parallel` is set.  Rust's `clone()` on the
fixture values is value equality, so both configs carry the same `f`. -/
def spawnedWorkers {R C : Type} (parallel gpuStealing : Bool) (f : Fixtures R C) :
    List (WorkerConfig R C) :=
  [{ name := "high", stealsResource := gpuStealing, fixtures := f }]
    ++ (if parallel then [{ name := "low", stealsResource := false, fixtures := f }] else [])

/-- Observable Supervisor actions, in the order `main` performs them. -/
inductive SupEvent where
  | buildFixtures
  | spawn (name : String) (stealsResource : Bool)
  | sleep (secs : Nat)
  | sendCancel (name : String)
  | join (name : String)
  | report (name : String)
  deriving DecidableEq, Repr

/-- The sequence of observable actions of `main` (lines 138–184) as a
function of the two CLI flags: build the fixtures once, spawn `"high"`
(and `"low"` iff `parallel`), sleep `TIMEOUT` seconds, send one
cancellation per sender in spawn order, then for each thread in spawn
order join it and immediately `info!` its name and `RunInfo` — the report
of a thread happens inside the same loop iteration as its join. -/
def mainTrace (parallel gpuStealing : Bool) : List SupEvent :=
  [SupEvent.buildFixtures, SupEvent.spawn "high" gpuStealing]
    ++ (if parallel then [SupEvent.spawn "low" false] else [])
    ++ [SupEvent.sleep TIMEOUT, SupEvent.sendCancel "high"]
    ++ (if parallel then [SupEvent.sendCancel "low"] else [])
    ++ [SupEvent.join "high", SupEvent.report "high"]
    ++ (if parallel then [SupEvent.join "low", SupEvent.report "low"] else [])

/-- Is an event a join? -/
def SupEvent.isJoin : SupEvent → Bool
  | SupEvent.join _ => true
  | _ => false

/-- Is an event a report? -/
def SupEvent.isReport : SupEvent → Bool
  | SupEvent.report _ => true
  | _ => false

/-- Is an event a spawn? -/
def SupEvent.isSpawn : SupEvent → Bool
  | SupEvent.spawn _ _ => true
  | _ => false

/-- Is an event a cancellation send? -/
def SupEvent.isSend : SupEvent → Bool
  | SupEvent.sendCancel _ => true
  | _ => false

/-- `true` iff no `join` event occurs anywhere after a `report` event, i.e.
every report is emitted only once all joins are done. -/
def reportsAfterAllJoins : List SupEvent → Bool
  | [] => true
  | e :: rest =>
      if e.isReport then rest.all (fun x => !x.isJoin) && reportsAfterAllJoins rest
      else reportsAfterAllJoins rest

/-! ## Worker invariants -/

/-- Inductive invariant of the Worker transition system: the iteration
counter stays below the `u8` bound, the GPU lock handle is held exactly
between `acquire_gpu` succeeding and `drop_acquire_lock`, and the ghost
count of completed workload invocations tracks the iteration counter —
running exactly one ahead of it between `do_generate_post` returning and
the `try_recv` checkpoint, and at loop exit either equal to it (loop left
via the `u8` ceiling) or one ahead (loop left via `break`). -/
def WInv (s : WState) : Prop :=
  s.iteration ≤ U8_MAX
  ∧ (s.holdsLock = true ↔ (s.phase = Phase.poll ∨ s.phase = Phase.dropLock))
  ∧ (match s.phase with
     | Phase.loopHead => s.completedRuns = s.iteration
     | Phase.acquire => s.completedRuns = s.iteration ∧ s.iteration < U8_MAX
     | Phase.poll => s.completedRuns = s.iteration ∧ s.iteration < U8_MAX
     | Phase.dropLock => s.completedRuns = s.iteration ∧ s.iteration < U8_MAX
     | Phase.runWorkload => s.completedRuns = s.iteration ∧ s.iteration < U8_MAX
     | Phase.checkChannel => s.completedRuns = s.iteration + 1 ∧ s.iteration < U8_MAX
     | Phase.done =>
         (s.completedRuns = s.iteration ∧ s.iteration = U8_MAX)
           ∨ s.completedRuns = s.iteration + 1
     | Phase.panicked => s.completedRuns = s.iteration)

theorem winv_init : WInv winit := by
  simp [WInv, winit, U8_MAX]

theorem winv_step (g : Bool) (s : WState) (i : WInput) (h : WInv s) :
    WInv (wstep g s i) := by
  obtain ⟨ph, it, ⟨pend, dropped⟩, hl, el, cr⟩ := s
  obtain ⟨h1, h2, h3⟩ := h
  cases i with
  | signal => cases ph <;> simp_all [wstep, WInv]
  | dropSender => cases ph <;> simp_all [wstep, WInv]
  | tick =>
      cases ph <;> simp_all [wstep, WInv, tryRecv, U8_MAX] <;>
        first
          | omega
          | (split_ifs <;> (try simp_all [U8_MAX]) <;> omega)
  | workloadDone d =>
      cases ph <;> simp_all [wstep, WInv, U8_MAX] <;> omega
  | acquireResult r =>
      cases r <;> cases ph <;> simp_all [wstep, WInv, U8_MAX] <;> omega
  | availResult r =>
      cases r with
      | error e => cases ph <;> simp_all [wstep, WInv, U8_MAX] <;> omega
      | ok b => cases b <;> cases ph <;> simp_all [wstep, WInv, U8_MAX] <;> omega

theorem winv_run (g : Bool) (s : WState) (l : List WInput) (h : WInv s) :
    WInv (runW g s l) := by
  induction l generalizing s with
  | nil => exact h
  | cons i l ih => exact ih _ (winv_step g s i h)

/-- The Worker's channel carries a pending cancellation signal, or its
sender is gone — either way `try_recv` can no longer return `Empty`. -/
def Signalled (s : WState) : Prop :=
  0 < s.chan.pending ∨ s.chan.senderDropped = true

/-- Invariant propagated after a cancellation signal: the channel stays
signalled until the Worker consumes it, at which point the Worker is
terminal. -/
def CancelInv (s : WState) : Prop :=
  Signalled s ∨ s.phase = Phase.done ∨ s.phase = Phase.panicked

/-- How many more `do_generate_post` invocations a signalled Worker can
still start: one while it is anywhere in the loop body before the
`try_recv` checkpoint, none at the checkpoint or once terminal. -/
def runBudget (s : WState) : Nat :=
  match s.phase with
  | Phase.checkChannel => 0
  | Phase.done => 0
  | Phase.panicked => 0
  | _ => 1

theorem cancel_step (g : Bool) (s : WState) (i : WInput) (h : CancelInv s) :
    CancelInv (wstep g s i)
      ∧ (wstep g s i).completedRuns + runBudget (wstep g s i)
          ≤ s.completedRuns + runBudget s
      ∧ (wstep g s i).iteration = s.iteration := by
  obtain ⟨ph, it, ⟨pend, dropped⟩, hl, el, cr⟩ := s
  simp only [CancelInv, Signalled] at h ⊢
  cases i with
  | signal =>
      cases ph <;> simp_all [wstep, runBudget] <;> omega
  | dropSender =>
      cases ph <;> simp_all [wstep, runBudget] <;> omega
  | tick =>
      cases ph <;> simp_all [wstep, runBudget, tryRecv, U8_MAX] <;>
        first
          | omega
          | (split_ifs <;> (try simp_all [runBudget]) <;> omega)
  | workloadDone d =>
      cases ph <;> simp_all [wstep, runBudget] <;> omega
  | acquireResult r =>
      cases r <;> cases ph <;> simp_all [wstep, runBudget] <;> omega
  | availResult r =>
      rcases r with e | b
      · cases ph <;> simp_all [wstep, runBudget] <;> omega
      · cases b <;> cases ph <;> simp_all [wstep, runBudget] <;> omega

theorem cancel_run (g : Bool) (s : WState) (l : List WInput) (h : CancelInv s) :
    (runW g s l).completedRuns + runBudget (runW g s l) ≤ s.completedRuns + runBudget s
      ∧ (runW g s l).iteration = s.iteration := by
  induction l generalizing s with
  | nil => exact ⟨Nat.le_refl _, rfl⟩
  | cons i l ih =>
      obtain ⟨h1, h2, h3⟩ := cancel_step g s i h
      obtain ⟨h4, h5⟩ := ih (wstep g s i) h1
      exact ⟨Nat.le_trans h4 h2, h5.trans h3⟩

/-! ## Claim theorems -/

/-- Environment-input script driving a non-stealing Worker through all 255
iterations to the `u8` ceiling: per iteration one loop-head tick, one
workload completion, one checkpoint tick; then the final loop-head tick
that exits the loop. -/
def ceilingInputs : List WInput :=
  (List.replicate U8_MAX [WInput.tick, WInput.workloadDone 0, WInput.tick]).flatten
    ++ [WInput.tick]

/-- C1 counterexample: run a Worker to the iteration ceiling, so it
terminates on its own and its receiver is dropped; the Supervisor's
subsequent `tx.send(()).unwrap()` then hits `Err(SendError)`
(`Except.error`), i.e. the send does not complete without failing. -/
theorem claim_C1_counterexample :
    (runW false winit ceilingInputs).phase = Phase.done
      ∧ (runW false winit ceilingInputs).iteration = U8_MAX
      ∧ sendAll [receiverAlive (runW false winit ceilingInputs)] = Except.error () := by
  exact ⟨rfl, rfl, rfl⟩

/-- C1 (amended): the cancellation broadcast of `main` (lines 169–171)
succeeds iff every Worker's receiver is still alive; a Worker that has
terminated on its own has dropped its receiver, so the `unwrap` on the
failed send panics the Supervisor instead of being a no-op. -/
theorem claim_C1_send_to_closed_channel_panics (alive : List Bool) :
    (sendAll alive = Except.ok () ↔ alive.all (fun b => b) = true)
      ∧ (∀ s : WState, s.phase = Phase.done → receiverAlive s = false) := by
  constructor
  · induction alive with
    | nil => simp [sendAll]
    | cons a rest ih => cases a <;> simp [sendAll, mpscSend, ih]
  · intro s hs
    obtain ⟨ph, it, ch, hl, el, cr⟩ := s
    simp only at hs
    subst hs
    rfl

/-- Witness for C1 (amended) at a concrete terminated Worker state. -/
theorem claim_C1_witness :
    receiverAlive { phase := Phase.done, iteration := 255,
                    chan := { pending := 0, senderDropped := false },
                    holdsLock := false, elapsedMs := 0, completedRuns := 255 } = false :=
  (claim_C1_send_to_closed_channel_panics []).2 _ rfl

/-- C2 counterexample: after `acquire_gpu` succeeds (main.rs line 55) the
Worker is in the availability-poll loop already holding the lock — the
code acquires first and polls afterwards, not the other way round. -/
theorem claim_C2_counterexample :
    (runW true winit [WInput.tick, WInput.acquireResult (Except.ok ())]).phase = Phase.poll
      ∧ (runW true winit
          [WInput.tick, WInput.acquireResult (Except.ok ())]).holdsLock = true := by
  exact ⟨rfl, rfl⟩

/-- C2 (amended): in the stealing step the Worker first calls
`acquire_gpu` and then busy-polls `gpu_is_available` with 100 ms sleeps
while holding the lock; the lock is released before `do_generate_post`,
so in every reachable state the lock is held during the poll phase and
never while the workload runs. -/
theorem claim_C2_steal_order (g : Bool) (l : List WInput) :
    ((runW g winit l).phase = Phase.poll → (runW g winit l).holdsLock = true)
      ∧ ((runW g winit l).phase = Phase.runWorkload → (runW g winit l).holdsLock = false)
      ∧ (∀ s : WState, s.phase = Phase.poll →
          wstep g s (WInput.availResult (Except.ok false)) =
              { s with elapsedMs := s.elapsedMs + POLL_SLEEP_MS }
            ∧ wstep g s (WInput.availResult (Except.ok true)) =
              { s with phase := Phase.dropLock }) := by
  obtain ⟨-, h2, -⟩ := winv_run g winit l winv_init
  refine ⟨fun hp => h2.mpr (Or.inl hp), fun hp => ?_, fun s hs => ?_⟩
  · cases hr : (runW g winit l).holdsLock
    · rfl
    · rcases h2.mp hr with h | h <;> rw [hp] at h <;> cases h
  · obtain ⟨ph, it, ch, hl, el, cr⟩ := s
    simp only at hs
    subst hs
    exact ⟨rfl, rfl⟩

/-- Witness for C2 (amended) at concrete reachable states. -/
theorem claim_C2_witness :
    (runW true winit [WInput.tick, WInput.acquireResult (Except.ok ())]).holdsLock = true
      ∧ (runW true winit [WInput.tick, WInput.acquireResult (Except.ok ()),
          WInput.availResult (Except.ok true), WInput.tick]).holdsLock = false
      ∧ wstep true
          { phase := Phase.poll, iteration := 0,
            chan := { pending := 0, senderDropped := false },
            holdsLock := true, elapsedMs := 0, completedRuns := 0 }
          (WInput.availResult (Except.ok false)) =
          { phase := Phase.poll, iteration := 0,
            chan := { pending := 0, senderDropped := false },
            holdsLock := true, elapsedMs := POLL_SLEEP_MS, completedRuns := 0 } :=
  ⟨(claim_C2_steal_order true [WInput.tick, WInput.acquireResult (Except.ok ())]).1 rfl,
   (claim_C2_steal_order true [WInput.tick, WInput.acquireResult (Except.ok ()),
      WInput.availResult (Except.ok true), WInput.tick]).2.1 rfl,
   ((claim_C2_steal_order true []).2.2 _ rfl).1⟩

/-- C3 counterexample: a failed `acquire_gpu` is not retried — the
`unwrap` on line 55 panics, terminating the Worker thread abnormally. -/
theorem claim_C3_counterexample :
    (runW true winit [WInput.tick, WInput.acquireResult (Except.error ())]).phase
      = Phase.panicked := by
  exact rfl

/-- C3 (amended): a lock-acquisition failure is fatal to the Worker (the
`unwrap` panics, no retry); a successful acquisition moves on to the
availability poll.  Only unavailability is retried via polling. -/
theorem claim_C3_acquire_failure_panics (g : Bool) (s : WState)
    (h : s.phase = Phase.acquire) :
    (wstep g s (WInput.acquireResult (Except.error ()))).phase = Phase.panicked
      ∧ (wstep g s (WInput.acquireResult (Except.ok ()))).phase = Phase.poll := by
  obtain ⟨ph, it, ch, hl, el, cr⟩ := s
  simp only at h
  subst h
  exact ⟨rfl, rfl⟩

/-- Witness for C3 (amended) at the reachable acquire state. -/
theorem claim_C3_witness :
    (wstep true (runW true winit [WInput.tick])
      (WInput.acquireResult (Except.error ()))).phase = Phase.panicked :=
  (claim_C3_acquire_failure_panics true (runW true winit [WInput.tick]) rfl).1

/-- C7: `main` spawns exactly one Worker (named "high", stealing per the
`gpu-stealing` flag) when `parallel = false`, and exactly two (the second
named "low" with stealing off) when `parallel = true`. -/
theorem claim_C7_spawn_configuration {R C : Type} (parallel gpuStealing : Bool)
    (f : Fixtures R C) :
    (spawnedWorkers parallel gpuStealing f).length = (if parallel then 2 else 1)
      ∧ (spawnedWorkers parallel gpuStealing f).head? =
          some { name := "high", stealsResource := gpuStealing, fixtures := f }
      ∧ (spawnedWorkers parallel gpuStealing f).drop 1 =
          (if parallel then
            [{ name := "low", stealsResource := false, fixtures := f }] else []) := by
  cases parallel <;> simp [spawnedWorkers]

/-- C8 counterexample: with `parallel = true` the report of "high"
(emitted inside the join loop, main.rs line 181) precedes the join of
"low", so the reports are not all placed after all joins. -/
theorem claim_C8_counterexample :
    reportsAfterAllJoins (mainTrace true true) = false := by
  exact rfl

/-- C8 (amended): the Supervisor sleeps exactly `TIMEOUT = 300` seconds,
then sends one cancellation per Worker, then joins the Workers in spawn
order, reporting each Worker immediately after its own join — so with two
Workers the "high" report precedes the "low" join, rather than all
reports following all joins. -/
theorem claim_C8_supervisor_order (g : Bool) :
    TIMEOUT = 300
      ∧ mainTrace false g =
          [SupEvent.buildFixtures, SupEvent.spawn "high" g, SupEvent.sleep TIMEOUT,
           SupEvent.sendCancel "high", SupEvent.join "high", SupEvent.report "high"]
      ∧ mainTrace true g =
          [SupEvent.buildFixtures, SupEvent.spawn "high" g, SupEvent.spawn "low" false,
           SupEvent.sleep TIMEOUT, SupEvent.sendCancel "high", SupEvent.sendCancel "low",
           SupEvent.join "high", SupEvent.report "high",
           SupEvent.join "low", SupEvent.report "low"] :=
  ⟨rfl, rfl, rfl⟩

/-- C9: the fixture build is the unique first event of the Supervisor
trace (hence strictly precedes every spawn), and every spawned Worker's
config carries fixture content equal to the value built once. -/
theorem claim_C9_fixtures_once (parallel gpuStealing : Bool) :
    ((mainTrace parallel gpuStealing).countP
        (fun e => decide (e = SupEvent.buildFixtures)) = 1)
      ∧ ((mainTrace parallel gpuStealing).head? = some SupEvent.buildFixtures)
      ∧ (∀ (R C : Type) (f : Fixtures R C) (c : WorkerConfig R C),
          c ∈ spawnedWorkers parallel gpuStealing f → c.fixtures = f) := by
  refine ⟨?_, ?_, ?_⟩
  · cases parallel <;> rfl
  · cases parallel <;> rfl
  · intro R C f c hc
    cases parallel <;> simp [spawnedWorkers] at hc
    · subst hc; rfl
    · rcases hc with rfl | rfl <;> rfl

/-- Witness for C9 at a concrete fixture value and spawned config. -/
theorem claim_C9_witness :
    ({ name := "low", stealsResource := false,
       fixtures := { privReplicaInfo := 0, candidates := 1 } } :
        WorkerConfig Nat Nat).fixtures
      = { privReplicaInfo := 0, candidates := 1 } :=
  (claim_C9_fixtures_once true true).2.2 Nat Nat _ _ (by simp [spawnedWorkers])

/-- C10: an `Err` from `gpu_is_available` is absorbed by `unwrap_or(false)`
(main.rs line 57): the Worker stays in the poll loop, sleeping another
100 ms, exactly as for an `Ok(false)`; no error is surfaced. -/
theorem claim_C10_avail_error_keeps_polling (g : Bool) (s : WState)
    (h : s.phase = Phase.poll) :
    wstep g s (WInput.availResult (Except.error ())) =
        { s with elapsedMs := s.elapsedMs + POLL_SLEEP_MS }
      ∧ (wstep g s (WInput.availResult (Except.error ()))).phase = Phase.poll
      ∧ wstep g s (WInput.availResult (Except.error ())) =
          wstep g s (WInput.availResult (Except.ok false)) := by
  obtain ⟨ph, it, ch, hl, el, cr⟩ := s
  simp only at h
  subst h
  exact ⟨rfl, rfl, rfl⟩

/-- Witness for C10 at the reachable poll state. -/
theorem claim_C10_witness :
    (wstep true (runW true winit [WInput.tick, WInput.acquireResult (Except.ok ())])
      (WInput.availResult (Except.error ()))).phase = Phase.poll :=
  (claim_C10_avail_error_keeps_polling true
    (runW true winit [WInput.tick, WInput.acquireResult (Except.ok ())]) rfl).2.1

/-- C4 counterexample: a Worker cancelled after its first workload
invocation exits with `RunInfo.iterations = 0` although one
`do_generate_post` call completed — the `break` on cancellation skips the
`iteration += 1`, so the counter undercounts completed invocations. -/
theorem claim_C4_counterexample :
    (runW false winit
        [WInput.signal, WInput.tick, WInput.workloadDone 0, WInput.tick]).phase
        = Phase.done
      ∧ (runInfoOf (runW false winit
          [WInput.signal, WInput.tick, WInput.workloadDone 0, WInput.tick])).iterations = 0
      ∧ (runW false winit
          [WInput.signal, WInput.tick, WInput.workloadDone 0, WInput.tick]).completedRuns
        = 1 :=
  ⟨rfl, rfl, rfl⟩

/-- C4 (amended): at loop exit, `RunInfo.iterations` equals the number of
completed workload invocations only on the iteration-ceiling path (where
it equals `u8::MAX`); on the cancellation / closed-channel path it equals
that number minus one, because the final completed invocation precedes
the `break` and is never counted. -/
theorem claim_C4_iterations_vs_runs (g : Bool) (l : List WInput)
    (h : (runW g winit l).phase = Phase.done) :
    ((runInfoOf (runW g winit l)).iterations = (runW g winit l).completedRuns
        ∧ (runW g winit l).iteration = U8_MAX)
      ∨ (runInfoOf (runW g winit l)).iterations + 1 = (runW g winit l).completedRuns := by
  obtain ⟨-, -, h3⟩ := winv_run g winit l winv_init
  simp only [h] at h3
  simp only [runInfoOf]
  rcases h3 with ⟨h4, h5⟩ | h4
  · exact Or.inl ⟨h4.symm, h5⟩
  · exact Or.inr h4.symm

/-- Witness for C4 (amended) on a concrete cancellation-path run. -/
theorem claim_C4_witness :
    ((runInfoOf (runW false winit
          [WInput.signal, WInput.tick, WInput.workloadDone 0, WInput.tick])).iterations
        = (runW false winit
            [WInput.signal, WInput.tick, WInput.workloadDone 0, WInput.tick]).completedRuns
        ∧ (runW false winit
            [WInput.signal, WInput.tick, WInput.workloadDone 0, WInput.tick]).iteration
          = U8_MAX)
      ∨ (runInfoOf (runW false winit
            [WInput.signal, WInput.tick, WInput.workloadDone 0, WInput.tick])).iterations + 1
        = (runW false winit
            [WInput.signal, WInput.tick, WInput.workloadDone 0, WInput.tick]).completedRuns :=
  claim_C4_iterations_vs_runs false
    [WInput.signal, WInput.tick, WInput.workloadDone 0, WInput.tick] rfl

/-- C5: once the Worker's channel is signalled (pending message or dropped
sender), at most one further `do_generate_post` invocation completes and
the iteration counter never advances again; moreover the channel is read
only at the `try_recv` checkpoint — no other Worker step touches it. -/
theorem claim_C5_cancellation_checkpoint (g : Bool) (s : WState) (l : List WInput)
    (h : Signalled s) :
    (runW g s l).completedRuns ≤ s.completedRuns + 1
      ∧ (runW g s l).iteration = s.iteration
      ∧ (∀ (t : WState) (i : WInput), t.phase ≠ Phase.checkChannel →
          i ≠ WInput.signal → i ≠ WInput.dropSender → (wstep g t i).chan = t.chan) := by
  obtain ⟨h1, h2⟩ := cancel_run g s l (Or.inl h)
  refine ⟨?_, h2, ?_⟩
  · have hs : runBudget s ≤ 1 := by
      obtain ⟨ph, it, ch, hl, el, cr⟩ := s
      cases ph <;> simp [runBudget]
    omega
  · intro t i ht hi hd
    obtain ⟨ph, it, ⟨pend, dropped⟩, hl, el, cr⟩ := t
    cases i with
    | signal => exact absurd rfl hi
    | dropSender => exact absurd rfl hd
    | tick =>
        cases ph <;> simp_all [wstep] <;> split_ifs <;> rfl
    | workloadDone d => cases ph <;> simp_all [wstep]
    | acquireResult r => cases r <;> cases ph <;> simp_all [wstep]
    | availResult r =>
        rcases r with e | b
        · cases ph <;> simp_all [wstep]
        · cases b <;> cases ph <;> simp_all [wstep]

/-- Witness for C5 at a concrete signalled mid-workload state. -/
theorem claim_C5_witness :
    (runW false
        { phase := Phase.runWorkload, iteration := 0,
          chan := { pending := 1, senderDropped := false },
          holdsLock := false, elapsedMs := 0, completedRuns := 0 }
        [WInput.workloadDone 0, WInput.tick]).completedRuns ≤ 1
      ∧ (runW false
          { phase := Phase.runWorkload, iteration := 0,
            chan := { pending := 1, senderDropped := false },
            holdsLock := false, elapsedMs := 0, completedRuns := 0 }
          [WInput.workloadDone 0, WInput.tick]).iteration = 0 :=
  ⟨(claim_C5_cancellation_checkpoint false _ [WInput.workloadDone 0, WInput.tick]
      (Or.inl Nat.one_pos)).1,
   (claim_C5_cancellation_checkpoint false _ [WInput.workloadDone 0, WInput.tick]
      (Or.inl Nat.one_pos)).2.1⟩

/-- C6: the iteration counter never exceeds `u8::MAX` in any reachable
state (in particular in the final `RunInfo`), every single step leaves it
unchanged or increments it by one, and once the loop has exited (`done`)
no step modifies the counter or leaves the terminal phase. -/
theorem claim_C6_iteration_invariants (g : Bool) :
    (∀ l : List WInput, (runInfoOf (runW g winit l)).iterations ≤ U8_MAX)
      ∧ (∀ (s : WState) (i : WInput),
          (wstep g s i).iteration = s.iteration
            ∨ (wstep g s i).iteration = s.iteration + 1)
      ∧ (∀ (s : WState) (i : WInput), s.phase = Phase.done →
          (wstep g s i).iteration = s.iteration ∧ (wstep g s i).phase = Phase.done) := by
  refine ⟨fun l => (winv_run g winit l winv_init).1, fun s i => ?_, fun s i h => ?_⟩
  · obtain ⟨ph, it, ⟨pend, dropped⟩, hl, el, cr⟩ := s
    cases i with
    | signal => cases ph <;> simp [wstep]
    | dropSender => cases ph <;> simp [wstep]
    | tick =>
        cases ph <;> simp [wstep, tryRecv] <;> split_ifs <;> simp
    | workloadDone d => cases ph <;> simp [wstep]
    | acquireResult r => cases r <;> cases ph <;> simp [wstep]
    | availResult r =>
        rcases r with e | b
        · cases ph <;> simp [wstep]
        · cases b <;> cases ph <;> simp [wstep]
  · obtain ⟨ph, it, ⟨pend, dropped⟩, hl, el, cr⟩ := s
    simp only at h
    subst h
    cases i <;> exact ⟨rfl, rfl⟩

/-- Witness for C6 at a concrete terminated Worker state. -/
theorem claim_C6_witness :
    (wstep false
        { phase := Phase.done, iteration := 7,
          chan := { pending := 0, senderDropped := false },
          holdsLock := false, elapsedMs := 0, completedRuns := 8 }
        WInput.tick).iteration = 7
      ∧ (wstep false
          { phase := Phase.done, iteration := 7,
            chan := { pending := 0, senderDropped := false },
            holdsLock := false, elapsedMs := 0, completedRuns := 8 }
          WInput.tick).phase = Phase.done :=
  (claim_C6_iteration_invariants false).2.2 _ WInput.tick rfl

end GpuCpuTest
